import Mathlib

/-!
Verification development for the priority task queue and dead-letter/retry
subsystem (queue service).  The definitions below are a shallow embedding of
the queue service: the two backing stores (the fast key/sorted-set store and
the durable relational store) are modelled as explicit state, every operation
is a pure state-passing function, and wall-clock timestamps are passed in as
explicit millisecond arguments.  Opaque identifiers (task ids, worker ids,
payloads, results) are modelled as natural numbers.
-/

set_option maxRecDepth 100000

/-- Task type tags, from the QueueTask interface. -/
inductive TaskType
  | document
  | audio
  | text
  | onboarding
  | communication
deriving DecidableEq

/-- Task lifecycle status, from the QueueTask interface. -/
inductive TaskStatus
  | pending
  | processing
  | completed
  | failed
deriving DecidableEq

/-- Status of a dead-letter entry row (independent of the task's status). -/
inductive DlqStatus
  | pending
  | processing
  | resolved
deriving DecidableEq

/-- Which backend served a call, from the return values of the service. -/
inductive QueueSource
  | redis
  | supabase
deriving DecidableEq

abbrev TaskId := Nat
abbrev Payload := Nat
abbrev ResultVal := Nat
abbrev WorkerId := Nat

/-- The score base used by the fast-store sorted set: score = priority * 1e12 + timestamp. -/
def scoreBase : Nat := 1000000000000

/-- The full task record, as stored in the fast store (interface QueueTask). -/
structure QueueTask where
  id : TaskId
  type : TaskType
  priority : Nat
  payload : Payload
  status : TaskStatus
  createdAt : Nat
  startedAt : Option Nat := none
  completedAt : Option Nat := none
  workerId : Option WorkerId := none
  retryCount : Nat
  maxRetries : Nat
  error : Option String := none
  result : Option ResultVal := none
  batchId : Option Nat := none
  itemIndex : Option Nat := none
deriving DecidableEq

/-- A dead-letter entry pushed onto the fast store's DLQ list: the task
record with status forced to failed and the error recorded, plus the
movedToDlqAt timestamp added by moveTaskToDlq. -/
structure RedisDlqEntry where
  task : QueueTask
  movedToDlqAt : Nat
deriving DecidableEq

/-- The fast store: task records keyed by id, the pending and processing
sorted sets (member paired with its score), and the per-type DLQ lists. -/
structure RedisState where
  tasks : List (TaskId × QueueTask)
  pending : List (TaskId × Nat)
  processing : List (TaskId × Nat)
  dlq : List (TaskType × RedisDlqEntry)
deriving DecidableEq

/-- A row of the durable store's task_queue table. -/
structure TaskRow where
  id : TaskId
  workflow_name : String
  task_type : TaskType
  priority : Nat
  payload : Payload
  status : TaskStatus
  retry_count : Nat
  max_retries : Nat
  created_at : Nat
  started_at : Option Nat := none
  completed_at : Option Nat := none
  worker_id : Option WorkerId := none
  error_message : Option String := none
  result : Option ResultVal := none
deriving DecidableEq

/-- A row of the durable store's dead_letter_queue table. -/
structure DlqRow where
  resource_type : TaskType
  resource_id : TaskId
  payload : Payload
  error_message : String
  error_code : String
  retry_count : Nat
  max_retries : Nat
  status : DlqStatus
deriving DecidableEq

/-- The durable store. -/
structure SupabaseState where
  task_queue : List TaskRow
  dead_letter_queue : List DlqRow
deriving DecidableEq

/-- The whole system state: whether the fast store is reachable, plus both
stores.  redisConnected models getRedisClient() and isRedisConnected()
both succeeding; backend calls on a connected store are modelled as
succeeding (the catch-and-fall-through paths fire only on backend errors). -/
structure Sys where
  redisConnected : Bool
  redis : RedisState
  db : SupabaseState
deriving DecidableEq

/-- Options accepted by enqueueTask (interface EnqueueOptions). -/
structure EnqueueOptions where
  priority : Option Nat := none
  maxRetries : Option Nat := none
  batchId : Option Nat := none
  itemIndex : Option Nat := none
deriving DecidableEq

/-- Return value of failTask. -/
structure FailResult where
  retried : Bool
  movedToDlq : Bool
deriving DecidableEq

/-- Return value of getQueueStats. -/
structure QueueStats where
  pending : Nat
  processing : Nat
  completed : Nat
  failed : Nat
  dlqSize : Nat
  source : QueueSource
deriving DecidableEq

/-- redis.get on a task key. -/
def redisGet (r : RedisState) (id : TaskId) : Option QueueTask :=
  (r.tasks.find? (fun p => p.1 == id)).map (fun p => p.2)

/-- redis.set on a task key (overwrite-or-insert). -/
def redisSet (r : RedisState) (id : TaskId) (t : QueueTask) : RedisState :=
  { r with tasks := r.tasks.filter (fun p => p.1 != id) ++ [(id, t)] }

/-- ZADD: insert a member with a score, replacing any previous score. -/
def zadd (z : List (TaskId × Nat)) (score : Nat) (member : TaskId) : List (TaskId × Nat) :=
  z.filter (fun p => p.1 != member) ++ [(member, score)]

/-- ZREM: remove a member, returning the new set and the number removed. -/
def zrem (z : List (TaskId × Nat)) (member : TaskId) : List (TaskId × Nat) × Nat :=
  (z.filter (fun p => p.1 != member), if z.any (fun p => p.1 == member) then 1 else 0)

/-- One comparison step for the sorted set's minimum: order by score, ties
broken lexicographically by member, as redis sorted sets do. -/
def zsetMinStep (best p : TaskId × Nat) : TaskId × Nat :=
  if p.2 < best.2 ∨ (p.2 = best.2 ∧ p.1 < best.1) then p else best

/-- ZRANGE key 0 0: the member with the lowest score. -/
def zrangeHead : List (TaskId × Nat) → Option TaskId
  | [] => none
  | e :: rest => some (rest.foldl zsetMinStep e).1

/-- The workflow_name mapping used on the durable enqueue path. -/
def getWorkflowName : TaskType → String
  | .document => "Document Processing Worker"
  | .audio => "Audio Processing Worker"
  | .text => "Text Processing Worker"
  | .onboarding => "Onboarding Worker"
  | .communication => "Communication Worker"

/-- enqueueTask.  The caller supplies `now` (Date.now) and the freshly
generated uuid as `taskId`.  On the fast path the task record and the
pending sorted-set entry are written and the call returns; only when the
fast store is unreachable is a row inserted into task_queue. -/
def enqueueTask (sys : Sys) (now : Nat) (taskId : TaskId) (type : TaskType)
    (payload : Payload) (options : EnqueueOptions) : (TaskId × QueueSource) × Sys :=
  let priority := options.priority.getD 2
  let maxRetries := options.maxRetries.getD 3
  let task : QueueTask :=
    { id := taskId
      type := type
      priority := priority
      payload := payload
      status := TaskStatus.pending
      createdAt := now
      retryCount := 0
      maxRetries := maxRetries
      batchId := options.batchId
      itemIndex := options.itemIndex }
  if sys.redisConnected then
    let r1 := redisSet sys.redis taskId task
    let score := priority * scoreBase + now
    let r2 := { r1 with pending := zadd r1.pending score taskId }
    ((taskId, QueueSource.redis), { sys with redis := r2 })
  else
    let row : TaskRow :=
      { id := taskId
        workflow_name := getWorkflowName type
        task_type := type
        priority := priority
        payload := payload
        status := TaskStatus.pending
        retry_count := 0
        max_retries := maxRetries
        created_at := now }
    ((taskId, QueueSource.supabase),
      { sys with db := { sys.db with task_queue := sys.db.task_queue ++ [row] } })

/-- The fast-store dequeue path: read the lowest-score pending member,
atomically remove it (the remover that sees a nonzero removal count wins),
then mark the task record processing. -/
def dequeueTaskRedis (r : RedisState) (now : Nat) (workerId : WorkerId) :
    Option QueueTask × RedisState :=
  match zrangeHead r.pending with
  | none => (none, r)
  | some taskId =>
    let rm := zrem r.pending taskId
    let r1 := { r with pending := rm.1 }
    if rm.2 == 0 then (none, r1)
    else
      match redisGet r1 taskId with
      | none => (none, r1)
      | some task =>
        let task2 :=
          { task with
            status := TaskStatus.processing
            startedAt := some now
            workerId := some workerId }
        let r2 := redisSet r1 taskId task2
        let r3 := { r2 with processing := zadd r2.processing now taskId }
        (some task2, r3)

/-- Boolean lexicographic comparison on (priority, created_at). -/
def rowLtB (a b : TaskRow) : Bool :=
  decide (a.priority < b.priority) ||
    (a.priority == b.priority && decide (a.created_at < b.created_at))

/-- Lexicographic at-most on (priority, created_at). -/
def rowLe (a b : TaskRow) : Prop :=
  a.priority < b.priority ∨ (a.priority = b.priority ∧ a.created_at ≤ b.created_at)

/-- One step of the ORDER BY (priority ASC, created_at ASC) LIMIT 1 selection. -/
def selectMinStep (best r : TaskRow) : TaskRow :=
  if rowLtB r best then r else best

/-- The first row under ORDER BY (priority ASC, created_at ASC). -/
def selectMin : List TaskRow → Option TaskRow
  | [] => none
  | x :: rest => some (rest.foldl selectMinStep x)

/-- The durable-path SELECT: the oldest pending row in the lowest priority tier. -/
def coldSelect (db : SupabaseState) : Option TaskRow :=
  selectMin (db.task_queue.filter (fun r => r.status == TaskStatus.pending))

/-- The durable-path conditional UPDATE (status pending -> processing WHERE
id AND status = pending).  Returns the new store and the number of rows the
filter matched.  A zero-row match is not a backend error: the client library
reports an error only on a failed request, so the service's updateError is
none here either way. -/
def coldUpdate (db : SupabaseState) (id : TaskId) (workerId : WorkerId) (now : Nat) :
    SupabaseState × Nat :=
  let affected := (db.task_queue.filter
    (fun r => r.id == id && r.status == TaskStatus.pending)).length
  let rows := db.task_queue.map (fun r =>
    if r.id == id && r.status == TaskStatus.pending then
      { r with
        status := TaskStatus.processing
        started_at := some now
        worker_id := some workerId }
    else r)
  ({ db with task_queue := rows }, affected)

/-- The tail of the durable dequeue path after the SELECT: run the
conditional update and, unless the update reported an error (it reports
none on a healthy backend, including the zero-rows case), return the task
built from the row fetched earlier. -/
def coldFinish (fetched : TaskRow) (updateError : Option String)
    (workerId : WorkerId) (now : Nat) : Option QueueTask :=
  match updateError with
  | some _ => none
  | none => some
      { id := fetched.id
        type := fetched.task_type
        priority := fetched.priority
        payload := fetched.payload
        status := TaskStatus.processing
        createdAt := fetched.created_at
        startedAt := some now
        workerId := some workerId
        retryCount := fetched.retry_count
        maxRetries := fetched.max_retries }

/-- The durable dequeue path, starting from an already-fetched row.  The
store argument is the store at the time of the UPDATE, which under
concurrency may differ from the store at the time of the SELECT. -/
def dequeueTaskSupabaseFrom (fetched : Option TaskRow) (db : SupabaseState)
    (workerId : WorkerId) (now : Nat) : Option QueueTask × SupabaseState :=
  match fetched with
  | none => (none, db)
  | some t =>
    let upd := coldUpdate db t.id workerId now
    (coldFinish t none workerId now, upd.1)

/-- The single-caller durable dequeue path: SELECT then conditional UPDATE
against the same store. -/
def dequeueTaskSupabase (db : SupabaseState) (workerId : WorkerId) (now : Nat) :
    Option QueueTask × SupabaseState :=
  dequeueTaskSupabaseFrom (coldSelect db) db workerId now

/-- dequeueTask: fast path when the fast store is reachable, otherwise the
durable path. -/
def dequeueTask (sys : Sys) (now : Nat) (workerId : WorkerId) : Option QueueTask × Sys :=
  if sys.redisConnected then
    let res := dequeueTaskRedis sys.redis now workerId
    (res.1, { sys with redis := res.2 })
  else
    let res := dequeueTaskSupabase sys.db workerId now
    (res.1, { sys with db := res.2 })

/-- The durable-path row update performed by completeTask. -/
def completeRow (taskId : TaskId) (result : Option ResultVal) (now : Nat)
    (r : TaskRow) : TaskRow :=
  if r.id == taskId then
    { r with status := TaskStatus.completed, completed_at := some now, result := result }
  else r

/-- completeTask: on the fast path rewrite the task record as completed and
drop it from the processing set; otherwise (or when the record is absent)
update the task_queue row unconditionally by id. -/
def completeTask (sys : Sys) (taskId : TaskId) (result : Option ResultVal) (now : Nat) : Sys :=
  if sys.redisConnected then
    match redisGet sys.redis taskId with
    | some task =>
      let task2 :=
        { task with
          status := TaskStatus.completed
          completedAt := some now
          result := result }
      let r2 := redisSet sys.redis taskId task2
      { sys with redis := { r2 with processing := (zrem r2.processing taskId).1 } }
    | none =>
      { sys with db := { sys.db with
          task_queue := sys.db.task_queue.map (completeRow taskId result now) } }
  else
    { sys with db := { sys.db with
        task_queue := sys.db.task_queue.map (completeRow taskId result now) } }

/-- The exponential backoff delay computed on the retry path:
2 ^ retryCount * 1000 milliseconds, with no cap. -/
def delayMs (retryCount : Nat) : Nat := 2 ^ retryCount * 1000

/-- The calculate_next_retry SQL function (seconds granularity):
NOW() + POWER(2, retry_count) * INTERVAL 1 second, with no cap. -/
def calculate_next_retry (now retry_count : Nat) : Nat := now + 2 ^ retry_count

/-- moveTaskToDlq: on the fast path remove the task from the processing set,
push a failed-status copy onto the per-type DLQ list and delete the task
record; in every case insert a dead_letter_queue row and mark any
task_queue row for the task as failed. -/
def moveTaskToDlq (sys : Sys) (task : QueueTask) (error : String) (now : Nat) : Sys :=
  let sys1 :=
    if sys.redisConnected then
      let proc2 := (zrem sys.redis.processing task.id).1
      let entry : RedisDlqEntry :=
        { task := { task with status := TaskStatus.failed, error := some error }
          movedToDlqAt := now }
      let dlq2 := (task.type, entry) :: sys.redis.dlq
      let tasks2 := sys.redis.tasks.filter (fun p => p.1 != task.id)
      { sys with redis := { sys.redis with processing := proc2, dlq := dlq2, tasks := tasks2 } }
    else sys
  let dlqRow : DlqRow :=
    { resource_type := task.type
      resource_id := task.id
      payload := task.payload
      error_message := error
      error_code := "MAX_RETRIES_EXCEEDED"
      retry_count := task.retryCount
      max_retries := task.maxRetries
      status := DlqStatus.pending }
  let rows := sys1.db.task_queue.map (fun r =>
    if r.id == task.id then { r with status := TaskStatus.failed, error_message := some error }
    else r)
  { sys1 with
    db :=
      { task_queue := rows
        dead_letter_queue := sys1.db.dead_letter_queue ++ [dlqRow] } }

/-- The task-loading stage of failTask: the fast store first (when
connected), then the task_queue row converted to a task record. -/
def loadTaskForFail (sys : Sys) (taskId : TaskId) : Option QueueTask :=
  let fromRedis := if sys.redisConnected then redisGet sys.redis taskId else none
  match fromRedis with
  | some t => some t
  | none =>
    match sys.db.task_queue.find? (fun r => r.id == taskId) with
    | some d => some
        { id := d.id
          type := d.task_type
          priority := d.priority
          payload := d.payload
          status := d.status
          createdAt := d.created_at
          retryCount := d.retry_count
          maxRetries := d.max_retries }
    | none => none

/-- failTask: increment retryCount, record the error, then either re-enqueue
as pending (fast store: score = priority * 1e12 + now + delay; durable
store: status back to pending with the new retry_count) or move to the DLQ. -/
def failTask (sys : Sys) (taskId : TaskId) (error : String) (shouldRetry : Bool)
    (now : Nat) : Except String (FailResult × Sys) :=
  match loadTaskForFail sys taskId with
  | none => Except.error "Task not found"
  | some task0 =>
    let newCount := task0.retryCount + 1
    let task := { task0 with retryCount := newCount, error := some error }
    let canRetry := shouldRetry && decide (newCount ≤ task0.maxRetries)
    if canRetry then
      if sys.redisConnected then
        let proc2 := (zrem sys.redis.processing taskId).1
        let score := task0.priority * scoreBase + now + delayMs newCount
        let pend2 := zadd sys.redis.pending score taskId
        let task2 := { task with status := TaskStatus.pending }
        let r2 := redisSet { sys.redis with processing := proc2, pending := pend2 } taskId task2
        Except.ok (⟨true, false⟩, { sys with redis := r2 })
      else
        let rows := sys.db.task_queue.map (fun r =>
          if r.id == taskId then
            { r with
              status := TaskStatus.pending
              retry_count := newCount
              error_message := some error }
          else r)
        Except.ok (⟨true, false⟩, { sys with db := { sys.db with task_queue := rows } })
    else
      Except.ok (⟨false, true⟩, moveTaskToDlq sys task error now)

/-- getTaskStatus: the fast store's task record when present, else the
task_queue row converted back to a task record, else none. -/
def getTaskStatus (sys : Sys) (taskId : TaskId) : Option QueueTask :=
  let fromRedis := if sys.redisConnected then redisGet sys.redis taskId else none
  match fromRedis with
  | some t => some t
  | none =>
    match sys.db.task_queue.find? (fun r => r.id == taskId) with
    | none => none
    | some d => some
        { id := d.id
          type := d.task_type
          priority := d.priority
          payload := d.payload
          status := d.status
          createdAt := d.created_at
          startedAt := d.started_at
          completedAt := d.completed_at
          workerId := d.worker_id
          retryCount := d.retry_count
          maxRetries := d.max_retries
          error := d.error_message
          result := d.result }

/-- getQueueStats: on the fast path the pending/processing set sizes and the
document+audio+text DLQ list lengths, with completed and failed hard-coded
to zero; on the durable path per-status row counts and the pending DLQ rows. -/
def getQueueStats (sys : Sys) : QueueStats :=
  if sys.redisConnected then
    { pending := sys.redis.pending.length
      processing := sys.redis.processing.length
      completed := 0
      failed := 0
      dlqSize := (sys.redis.dlq.filter (fun p => p.1 == TaskType.document)).length
        + (sys.redis.dlq.filter (fun p => p.1 == TaskType.audio)).length
        + (sys.redis.dlq.filter (fun p => p.1 == TaskType.text)).length
      source := QueueSource.redis }
  else
    { pending := (sys.db.task_queue.filter (fun t => t.status == TaskStatus.pending)).length
      processing := (sys.db.task_queue.filter (fun t => t.status == TaskStatus.processing)).length
      completed := (sys.db.task_queue.filter (fun t => t.status == TaskStatus.completed)).length
      failed := (sys.db.task_queue.filter (fun t => t.status == TaskStatus.failed)).length
      dlqSize := (sys.db.dead_letter_queue.filter (fun d => d.status == DlqStatus.pending)).length
      source := QueueSource.supabase }

/-- Projection out of failTask's Except, with an inert default for the
error case (the scenarios below prove the calls succeed). -/
def exOk (e : Except String (FailResult × Sys)) : FailResult × Sys :=
  match e with
  | Except.ok v => v
  | Except.error _ =>
    (⟨false, false⟩,
      { redisConnected := false
        redis := { tasks := [], pending := [], processing := [], dlq := [] }
        db := { task_queue := [], dead_letter_queue := [] } })

/-- The empty fast store. -/
def redis0 : RedisState := { tasks := [], pending := [], processing := [], dlq := [] }

/-- The empty durable store. -/
def db0 : SupabaseState := { task_queue := [], dead_letter_queue := [] }

/-- Empty system with the fast store reachable. -/
def sysRedis0 : Sys := { redisConnected := true, redis := redis0, db := db0 }

/-- Empty system with the fast store unreachable. -/
def sysSupa0 : Sys := { redisConnected := false, redis := redis0, db := db0 }

/-- Scenario P2 on the fast path: five enqueues with priorities
[3,0,2,0,4] at strictly increasing times. -/
def c2r1 : Sys := (enqueueTask sysRedis0 100 1 TaskType.document 0 { priority := some 3 }).2

def c2r2 : Sys := (enqueueTask c2r1 101 2 TaskType.document 0 { priority := some 0 }).2

def c2r3 : Sys := (enqueueTask c2r2 102 3 TaskType.document 0 { priority := some 2 }).2

def c2r4 : Sys := (enqueueTask c2r3 103 4 TaskType.document 0 { priority := some 0 }).2

def c2r5 : Sys := (enqueueTask c2r4 104 5 TaskType.document 0 { priority := some 4 }).2

def c2rd1 : Option QueueTask × Sys := dequeueTask c2r5 110 9

def c2rd2 : Option QueueTask × Sys := dequeueTask c2rd1.2 111 9

def c2rd3 : Option QueueTask × Sys := dequeueTask c2rd2.2 112 9

def c2rd4 : Option QueueTask × Sys := dequeueTask c2rd3.2 113 9

def c2rd5 : Option QueueTask × Sys := dequeueTask c2rd4.2 114 9

/-- The task ids returned by the five successive fast-path claims. -/
def c2RedisIds : List (Option TaskId) :=
  [c2rd1.1.map (fun t => t.id), c2rd2.1.map (fun t => t.id), c2rd3.1.map (fun t => t.id),
   c2rd4.1.map (fun t => t.id), c2rd5.1.map (fun t => t.id)]

/-- Scenario P2 on the durable path: the same five enqueues. -/
def c2s1 : Sys := (enqueueTask sysSupa0 100 1 TaskType.document 0 { priority := some 3 }).2

def c2s2 : Sys := (enqueueTask c2s1 101 2 TaskType.document 0 { priority := some 0 }).2

def c2s3 : Sys := (enqueueTask c2s2 102 3 TaskType.document 0 { priority := some 2 }).2

def c2s4 : Sys := (enqueueTask c2s3 103 4 TaskType.document 0 { priority := some 0 }).2

def c2s5 : Sys := (enqueueTask c2s4 104 5 TaskType.document 0 { priority := some 4 }).2

def c2sd1 : Option QueueTask × Sys := dequeueTask c2s5 110 9

def c2sd2 : Option QueueTask × Sys := dequeueTask c2sd1.2 111 9

def c2sd3 : Option QueueTask × Sys := dequeueTask c2sd2.2 112 9

def c2sd4 : Option QueueTask × Sys := dequeueTask c2sd3.2 113 9

def c2sd5 : Option QueueTask × Sys := dequeueTask c2sd4.2 114 9

/-- The task ids returned by the five successive durable-path claims. -/
def c2SupaIds : List (Option TaskId) :=
  [c2sd1.1.map (fun t => t.id), c2sd2.1.map (fun t => t.id), c2sd3.1.map (fun t => t.id),
   c2sd4.1.map (fun t => t.id), c2sd5.1.map (fun t => t.id)]

/-- A single pending durable row, used to instantiate the ordering theorem. -/
def rowW : TaskRow :=
  { id := 5
    workflow_name := "Document Processing Worker"
    task_type := TaskType.document
    priority := 1
    payload := 0
    status := TaskStatus.pending
    retry_count := 0
    max_retries := 3
    created_at := 20 }

def dbW : SupabaseState := { task_queue := [rowW], dead_letter_queue := [] }

/-- The claimed task that the durable dequeue returns on dbW. -/
def qtW : QueueTask :=
  { id := 5
    type := TaskType.document
    priority := 1
    payload := 0
    status := TaskStatus.processing
    createdAt := 20
    startedAt := some 50
    workerId := some 7
    retryCount := 0
    maxRetries := 3 }

/-- The durable store after the dequeue on dbW. -/
def dbW2 : SupabaseState :=
  { task_queue := [{ rowW with
      status := TaskStatus.processing
      started_at := some 50
      worker_id := some 7 }]
    dead_letter_queue := [] }

/-- Scenario P3: one durable-path task with max_retries = 2 that always fails. -/
def c3s0 : Sys := (enqueueTask sysSupa0 0 1 TaskType.document 0 { maxRetries := some 2 }).2

def c3d1 : Option QueueTask × Sys := dequeueTask c3s0 10 9

def c3f1 : Except String (FailResult × Sys) := failTask c3d1.2 1 "boom" true 11

def c3d2 : Option QueueTask × Sys := dequeueTask (exOk c3f1).2 12 9

def c3f2 : Except String (FailResult × Sys) := failTask c3d2.2 1 "boom" true 13

def c3d3 : Option QueueTask × Sys := dequeueTask (exOk c3f2).2 14 9

def c3f3 : Except String (FailResult × Sys) := failTask c3d3.2 1 "boom" true 15

/-- A durable row with a processing task, used to instantiate the failTask theorem. -/
def rowC3 : TaskRow :=
  { id := 1
    workflow_name := "Document Processing Worker"
    task_type := TaskType.document
    priority := 2
    payload := 0
    status := TaskStatus.processing
    retry_count := 0
    max_retries := 3
    created_at := 0 }

def sysC3w : Sys :=
  { redisConnected := false
    redis := redis0
    db := { task_queue := [rowC3], dead_letter_queue := [] } }

/-- The task record failTask loads from rowC3. -/
def t0C3 : QueueTask :=
  { id := 1
    type := TaskType.document
    priority := 2
    payload := 0
    status := TaskStatus.processing
    createdAt := 0
    retryCount := 0
    maxRetries := 3 }

/-- A durable store with a single pending task, raced over by two claimers. -/
def rowRace1 : TaskRow :=
  { id := 1
    workflow_name := "Document Processing Worker"
    task_type := TaskType.document
    priority := 2
    payload := 0
    status := TaskStatus.pending
    retry_count := 0
    max_retries := 3
    created_at := 100 }

def dbRace1 : SupabaseState := { task_queue := [rowRace1], dead_letter_queue := [] }

/-- A second one-pending-task durable store for the zero-rows-affected claim. -/
def rowRace2 : TaskRow :=
  { id := 3
    workflow_name := "Audio Processing Worker"
    task_type := TaskType.audio
    priority := 1
    payload := 8
    status := TaskStatus.pending
    retry_count := 0
    max_retries := 3
    created_at := 40 }

def dbRace2 : SupabaseState := { task_queue := [rowRace2], dead_letter_queue := [] }

/-- A fast-store task record in processing state, used to instantiate the
backoff theorem. -/
def t0C5 : QueueTask :=
  { id := 1
    type := TaskType.document
    priority := 2
    payload := 0
    status := TaskStatus.processing
    createdAt := 0
    startedAt := some 1
    workerId := some 9
    retryCount := 0
    maxRetries := 3 }

def sysC5 : Sys :=
  { redisConnected := true
    redis := { tasks := [(1, t0C5)], pending := [], processing := [(1, 1)], dlq := [] }
    db := db0 }

/-- Scenario B: durable-path enqueue with max_retries = 0, claim, one failure. -/
def c6s0 : Sys := (enqueueTask sysSupa0 0 1 TaskType.document 42 { maxRetries := some 0 }).2

def c6d1 : Option QueueTask × Sys := dequeueTask c6s0 5 7

def c6f : Except String (FailResult × Sys) := failTask c6d1.2 1 "boom" true 6

/-- Scenario P6: durable-path enqueue then two identical completions. -/
def c8s0 : Sys := (enqueueTask sysSupa0 0 1 TaskType.document 0 {}).2

def c8s1 : Sys := completeTask c8s0 1 (some 99) 10

def c8s2 : Sys := completeTask c8s1 1 (some 99) 20

/-- Scenario C on the fast path: five enqueues (max_retries = 0), two
claim+complete cycles, one claim+failure that dead-letters. -/
def c9opts : EnqueueOptions := { maxRetries := some 0 }

def c9r1 : Sys := (enqueueTask sysRedis0 1 1 TaskType.document 0 c9opts).2

def c9r2 : Sys := (enqueueTask c9r1 2 2 TaskType.document 0 c9opts).2

def c9r3 : Sys := (enqueueTask c9r2 3 3 TaskType.document 0 c9opts).2

def c9r4 : Sys := (enqueueTask c9r3 4 4 TaskType.document 0 c9opts).2

def c9r5 : Sys := (enqueueTask c9r4 5 5 TaskType.document 0 c9opts).2

def c9rd1 : Option QueueTask × Sys := dequeueTask c9r5 10 9

def c9rc1 : Sys := completeTask c9rd1.2 1 (some 11) 11

def c9rd2 : Option QueueTask × Sys := dequeueTask c9rc1 12 9

def c9rc2 : Sys := completeTask c9rd2.2 2 (some 13) 13

def c9rd3 : Option QueueTask × Sys := dequeueTask c9rc2 14 9

def c9rf : Except String (FailResult × Sys) := failTask c9rd3.2 3 "err" true 15

def c9rFinal : Sys := (exOk c9rf).2

/-- Scenario C on the durable path: the same operation sequence. -/
def c9p1 : Sys := (enqueueTask sysSupa0 1 1 TaskType.document 0 c9opts).2

def c9p2 : Sys := (enqueueTask c9p1 2 2 TaskType.document 0 c9opts).2

def c9p3 : Sys := (enqueueTask c9p2 3 3 TaskType.document 0 c9opts).2

def c9p4 : Sys := (enqueueTask c9p3 4 4 TaskType.document 0 c9opts).2

def c9p5 : Sys := (enqueueTask c9p4 5 5 TaskType.document 0 c9opts).2

def c9pd1 : Option QueueTask × Sys := dequeueTask c9p5 10 9

def c9pc1 : Sys := completeTask c9pd1.2 1 (some 11) 11

def c9pd2 : Option QueueTask × Sys := dequeueTask c9pc1 12 9

def c9pc2 : Sys := completeTask c9pd2.2 2 (some 13) 13

def c9pd3 : Option QueueTask × Sys := dequeueTask c9pc2 14 9

def c9pf : Except String (FailResult × Sys) := failTask c9pd3.2 3 "err" true 15

def c9pFinal : Sys := (exOk c9pf).2

/-- Fast-path enqueue with max_retries = 0, claim, then a dead-lettering
failure: the flow behind the implicit lost-visibility claim. -/
def c10s0 : Sys := (enqueueTask sysRedis0 0 1 TaskType.document 7 { maxRetries := some 0 }).2

def c10d1 : Option QueueTask × Sys := dequeueTask c10s0 5 9

def c10f : Except String (FailResult × Sys) := failTask c10d1.2 1 "fatal" true 6

def c10Final : Sys := (exOk c10f).2

/-- The task record that enqueueTask builds. -/
def mkEnqueuedTask (now : Nat) (taskId : TaskId) (type : TaskType) (payload : Payload)
    (options : EnqueueOptions) : QueueTask :=
  { id := taskId
    type := type
    priority := options.priority.getD 2
    payload := payload
    status := TaskStatus.pending
    createdAt := now
    retryCount := 0
    maxRetries := options.maxRetries.getD 3
    batchId := options.batchId
    itemIndex := options.itemIndex }

/-- The task_queue row that the fallback enqueue path inserts. -/
def mkEnqueuedRow (now : Nat) (taskId : TaskId) (type : TaskType) (payload : Payload)
    (options : EnqueueOptions) : TaskRow :=
  { id := taskId
    workflow_name := getWorkflowName type
    task_type := type
    priority := options.priority.getD 2
    payload := payload
    status := TaskStatus.pending
    retry_count := 0
    max_retries := options.maxRetries.getD 3
    created_at := now }

/-- The system state produced by the fast-store retry path of failTask. -/
def failRetryRedisState (sys : Sys) (taskId : TaskId) (error : String) (now : Nat)
    (task0 : QueueTask) : Sys :=
  let proc2 := (zrem sys.redis.processing taskId).1
  let score := task0.priority * scoreBase + now + delayMs (task0.retryCount + 1)
  let pend2 := zadd sys.redis.pending score taskId
  let task2 :=
    { task0 with
      retryCount := task0.retryCount + 1
      error := some error
      status := TaskStatus.pending }
  { sys with redis := redisSet { sys.redis with processing := proc2, pending := pend2 } taskId task2 }

theorem find?_set {α : Type} (l : List (Nat × α)) (id : Nat) (v : α) :
    (l.filter (fun p => p.1 != id) ++ [(id, v)]).find? (fun p => p.1 == id) = some (id, v) := by
  induction l with
  | nil => simp [List.find?]
  | cons p l ih =>
    by_cases h : p.1 = id
    · rw [show (List.filter (fun p => p.1 != id) (p :: l)) = List.filter (fun p => p.1 != id) l from by simp [List.filter_cons, h]]
      exact ih
    · have hne : (p.1 != id) = true := by simp [h]
      have hbe : (p.1 == id) = false := by simp [h]
      rw [show (List.filter (fun p => p.1 != id) (p :: l)) = p :: List.filter (fun p => p.1 != id) l from by simp [List.filter_cons, hne]]
      rw [List.cons_append, List.find?_cons, hbe]
      exact ih

theorem redisGet_redisSet (r : RedisState) (id : TaskId) (t : QueueTask) :
    redisGet (redisSet r id t) id = some t := by
  unfold redisGet redisSet
  rw [find?_set]
  rfl

theorem rowLe_refl (a : TaskRow) : rowLe a a := by
  unfold rowLe
  omega

theorem rowLtB_imp_le {a b : TaskRow} (h : rowLtB a b = true) : rowLe a b := by
  simp only [rowLtB, Bool.or_eq_true, Bool.and_eq_true, decide_eq_true_eq, beq_iff_eq] at h
  unfold rowLe
  omega

theorem rowLtB_false_le {a b : TaskRow} (h : rowLtB a b = false) : rowLe b a := by
  simp only [rowLtB, Bool.or_eq_false_iff, Bool.and_eq_false_iff, decide_eq_false_iff_not,
    beq_eq_false_iff_ne, ne_eq] at h
  unfold rowLe
  omega

theorem rowLe_trans {a b c : TaskRow} (h1 : rowLe a b) (h2 : rowLe b c) : rowLe a c := by
  unfold rowLe at h1 h2 ⊢
  omega

theorem foldl_selectMin_mem (l : List TaskRow) (a : TaskRow) :
    l.foldl selectMinStep a = a ∨ l.foldl selectMinStep a ∈ l := by
  induction l generalizing a with
  | nil => exact Or.inl rfl
  | cons x l ih =>
    simp only [List.foldl_cons]
    rcases ih (selectMinStep a x) with h | h
    · by_cases hb : rowLtB x a = true
      · have hbx : selectMinStep a x = x := by
          unfold selectMinStep
          rw [if_pos hb]
        rw [hbx] at h ⊢
        exact Or.inr (by simp [h])
      · have hba : selectMinStep a x = a := by
          unfold selectMinStep
          rw [if_neg hb]
        rw [hba] at h ⊢
        exact Or.inl h
    · exact Or.inr (List.mem_cons_of_mem _ h)

theorem foldl_selectMin_le (l : List TaskRow) (a : TaskRow) :
    rowLe (l.foldl selectMinStep a) a ∧ ∀ q ∈ l, rowLe (l.foldl selectMinStep a) q := by
  induction l generalizing a with
  | nil => exact ⟨rowLe_refl a, by simp⟩
  | cons x l ih =>
    have hstep_a : rowLe (selectMinStep a x) a := by
      unfold selectMinStep
      by_cases hb : rowLtB x a = true
      · rw [if_pos hb]
        exact rowLtB_imp_le hb
      · rw [if_neg hb]
        exact rowLe_refl a
    have hstep_x : rowLe (selectMinStep a x) x := by
      unfold selectMinStep
      by_cases hb : rowLtB x a = true
      · rw [if_pos hb]
        exact rowLe_refl x
      · rw [if_neg hb]
        exact rowLtB_false_le (Bool.eq_false_iff.mpr hb)
    obtain ⟨h1, h2⟩ := ih (selectMinStep a x)
    simp only [List.foldl_cons]
    refine ⟨rowLe_trans h1 hstep_a, ?_⟩
    intro q hq
    rcases List.mem_cons.1 hq with rfl | hq
    · exact rowLe_trans h1 hstep_x
    · exact h2 q hq

theorem selectMin_spec {l : List TaskRow} {r : TaskRow} (h : selectMin l = some r) :
    r ∈ l ∧ ∀ q ∈ l, rowLe r q := by
  cases l with
  | nil => simp [selectMin] at h
  | cons x rest =>
    simp only [selectMin, Option.some.injEq] at h
    subst h
    obtain ⟨h1, h2⟩ := foldl_selectMin_le rest x
    constructor
    · rcases foldl_selectMin_mem rest x with he | he
      · rw [he]
        exact List.mem_cons_self x rest
      · exact List.mem_cons_of_mem _ he
    · intro q hq
      rcases List.mem_cons.1 hq with rfl | hq
      · exact h1
      · exact h2 q hq

theorem coldSelect_spec {db : SupabaseState} {r : TaskRow} (h : coldSelect db = some r) :
    r ∈ db.task_queue ∧ r.status = TaskStatus.pending ∧
      ∀ q ∈ db.task_queue, q.status = TaskStatus.pending → rowLe r q := by
  obtain ⟨hmem, hall⟩ := selectMin_spec h
  have hf := List.mem_filter.1 hmem
  refine ⟨hf.1, by simpa using hf.2, ?_⟩
  intro q hq hqs
  exact hall q (List.mem_filter.2 ⟨hq, by simpa using hqs⟩)

theorem redisGet_pending_update (r : RedisState) (z : List (TaskId × Nat)) (id : TaskId) :
    redisGet { r with pending := z } id = redisGet r id := rfl

/-- C1 (counterexample): a fast-path enqueue returns queue = redis while the
durable task_queue table is still empty, so the returned task id does not
exist in the Durable Store at the moment of return. -/
theorem enqueue_not_mirrored_counterexample :
    (enqueueTask sysRedis0 0 1 TaskType.document 0 {}).1.2 = QueueSource.redis ∧
    (enqueueTask sysRedis0 0 1 TaskType.document 0 {}).2.db.task_queue = [] := by decide

/-- C1 (amended): a task id returned by enqueueTask exists in the Durable
Store at the moment of return only on the fallback path (queue = supabase);
on the fast path the task is written solely to the Fast Store and the
Durable Store is left untouched. -/
theorem enqueue_durable_only_on_fallback :
    (∀ sys now id ty p opts, sys.redisConnected = false →
      (enqueueTask sys now id ty p opts).1.2 = QueueSource.supabase ∧
      (enqueueTask sys now id ty p opts).2.db.task_queue
        = sys.db.task_queue ++ [mkEnqueuedRow now id ty p opts] ∧
      (mkEnqueuedRow now id ty p opts).status = TaskStatus.pending)
  ∧ (∀ sys now id ty p opts, sys.redisConnected = true →
      (enqueueTask sys now id ty p opts).1.2 = QueueSource.redis ∧
      (enqueueTask sys now id ty p opts).2.db = sys.db ∧
      redisGet (enqueueTask sys now id ty p opts).2.redis id
        = some (mkEnqueuedTask now id ty p opts)) := by
  constructor
  · intro sys now id ty p opts h
    refine ⟨by simp [enqueueTask, h], by simp [enqueueTask, h, mkEnqueuedRow], rfl⟩
  · intro sys now id ty p opts h
    refine ⟨by simp [enqueueTask, h], by simp [enqueueTask, h], ?_⟩
    show redisGet (enqueueTask sys now id ty p opts).2.redis id = _
    simp only [enqueueTask, h, if_true]
    rw [redisGet_pending_update]
    exact redisGet_redisSet _ _ _

/-- C1 (witness): the amended statement instantiated on concrete states for
both the fallback and the fast path. -/
theorem enqueue_durable_only_on_fallback_witness :
    ((enqueueTask sysSupa0 5 7 TaskType.audio 3 {}).1.2 = QueueSource.supabase ∧
     (enqueueTask sysSupa0 5 7 TaskType.audio 3 {}).2.db.task_queue
       = sysSupa0.db.task_queue ++ [mkEnqueuedRow 5 7 TaskType.audio 3 {}] ∧
     (mkEnqueuedRow 5 7 TaskType.audio 3 {}).status = TaskStatus.pending) ∧
    ((enqueueTask sysRedis0 5 7 TaskType.audio 3 {}).1.2 = QueueSource.redis ∧
     (enqueueTask sysRedis0 5 7 TaskType.audio 3 {}).2.db = sysRedis0.db ∧
     redisGet (enqueueTask sysRedis0 5 7 TaskType.audio 3 {}).2.redis 7
       = some (mkEnqueuedTask 5 7 TaskType.audio 3 {})) :=
  ⟨enqueue_durable_only_on_fallback.1 sysSupa0 5 7 TaskType.audio 3 {} rfl,
   enqueue_durable_only_on_fallback.2 sysRedis0 5 7 TaskType.audio 3 {} rfl⟩

/-- C4: two workers that both SELECT the single pending task while it is
still pending, then run their conditional updates one after the other, each
receive the task: the second update matches zero rows, yet because the
client reports no error on a zero-row update the loser also returns the
task, violating at-most-one delivery on the durable path. -/
theorem concurrent_claim_double_delivery :
    (dequeueTaskSupabaseFrom (coldSelect dbRace1) dbRace1 11 200).1.map (fun t => t.id)
      = some 1 ∧
    (dequeueTaskSupabaseFrom (coldSelect dbRace1)
      (dequeueTaskSupabaseFrom (coldSelect dbRace1) dbRace1 11 200).2 12 201).1.map
        (fun t => t.id) = some 1 ∧
    (coldUpdate (dequeueTaskSupabaseFrom (coldSelect dbRace1) dbRace1 11 200).2 1 12 201).2
      = 0 := by decide

/-- C7: on the durable claim path, when the conditional update
pending -> processing matches zero rows (the selected task was already
claimed), dequeueTask still returns the task instead of null. -/
theorem cold_claim_zero_rows_returns_task :
    (coldUpdate (coldUpdate dbRace2 3 21 300).1 3 22 301).2 = 0 ∧
    (dequeueTaskSupabaseFrom (coldSelect dbRace2) (coldUpdate dbRace2 3 21 300).1 22 301).1.map
      (fun t => t.id) = some 3 := by decide

/-- C10: a task enqueued on the fast path and later dead-lettered is deleted
from the fast store and was never written to task_queue, so getTaskStatus
returns none for it even though dead-letter entries for the task exist in
both stores. -/
theorem dlq_task_invisible_to_status :
    (c10s0.redis.tasks.find? (fun p => p.1 == 1)).isSome = true ∧
    c10s0.db.task_queue = [] ∧
    (exOk c10f).1 = ⟨false, true⟩ ∧
    getTaskStatus c10Final 1 = none ∧
    (c10Final.redis.dlq.filter (fun p => p.2.task.id == 1)).length = 1 ∧
    (c10Final.db.dead_letter_queue.filter (fun d => d.resource_id == 1)).length = 1 := by decide

/-- C2: on the durable path the claimed task is a pending row that is
lexicographically minimal in (priority, created_at) among all pending rows;
the fast-store score encoding priority * 1e12 + timestamp realises the same
order whenever timestamps are within 1e12 ms of each other (true of any
real clock readings); and the [3,0,2,0,4] enqueue scenario is claimed in
the order [priority0-first, priority0-second, priority2, priority3,
priority4] on both backends. -/
theorem dequeue_priority_fifo_order :
    (∀ db w now qt db2, dequeueTaskSupabase db w now = (some qt, db2) →
      ∃ row, row ∈ db.task_queue ∧ row.status = TaskStatus.pending ∧ qt.id = row.id ∧
        ∀ q, q ∈ db.task_queue → q.status = TaskStatus.pending →
          row.priority < q.priority ∨ (row.priority = q.priority ∧ row.created_at ≤ q.created_at))
  ∧ (∀ p1 c1 p2 c2 : Nat, c1 < c2 + scoreBase → c2 < c1 + scoreBase →
      (p1 * scoreBase + c1 < p2 * scoreBase + c2 ↔ (p1 < p2 ∨ (p1 = p2 ∧ c1 < c2))))
  ∧ c2RedisIds = [some 2, some 4, some 3, some 1, some 5]
  ∧ c2SupaIds = [some 2, some 4, some 3, some 1, some 5] := by
  refine ⟨?_, ?_, by decide, by decide⟩
  · intro db w now qt db2 h
    unfold dequeueTaskSupabase at h
    cases hsel : coldSelect db with
    | none =>
      rw [hsel] at h
      simp [dequeueTaskSupabaseFrom] at h
    | some t =>
      rw [hsel] at h
      simp only [dequeueTaskSupabaseFrom] at h
      have hqt : coldFinish t none w now = some qt := by
        have h1 := congrArg Prod.fst h
        simpa using h1
      simp only [coldFinish, Option.some.injEq] at hqt
      obtain ⟨hm, hs, hmin⟩ := coldSelect_spec hsel
      refine ⟨t, hm, hs, ?_, fun q hq hqs => hmin q hq hqs⟩
      rw [← hqt]
  · intro p1 c1 p2 c2 h1 h2
    unfold scoreBase at h1 h2 ⊢
    omega

/-- C2 (witness): the ordering theorem instantiated on a one-row durable
store and on a concrete score comparison. -/
theorem dequeue_priority_fifo_order_witness :
    (∃ row, row ∈ dbW.task_queue ∧ row.status = TaskStatus.pending ∧ qtW.id = row.id ∧
      ∀ q, q ∈ dbW.task_queue → q.status = TaskStatus.pending →
        row.priority < q.priority ∨ (row.priority = q.priority ∧ row.created_at ≤ q.created_at)) ∧
    ((3 * scoreBase + 100 < 0 * scoreBase + 101) ↔ (3 < 0 ∨ (3 = 0 ∧ 100 < 101))) :=
  ⟨dequeue_priority_fifo_order.1 dbW 7 50 qtW dbW2 (by decide),
   dequeue_priority_fifo_order.2.1 3 100 0 101 (by decide) (by decide)⟩

/-- C3: failTask first increments retry_count, then retries exactly when
should_retry holds and the incremented count is within max_retries,
otherwise dead-letters; a durable-path task with max_retries = 2 that
always fails is retried twice, dead-lettered on the third failure with
retry_count 3, and is never claimable afterwards. -/
theorem failTask_retry_budget :
    (∀ sys id err sr now t0, loadTaskForFail sys id = some t0 →
      ∃ sys2, failTask sys id err sr now =
        Except.ok (⟨sr && decide (t0.retryCount + 1 ≤ t0.maxRetries),
                    !(sr && decide (t0.retryCount + 1 ≤ t0.maxRetries))⟩, sys2))
  ∧ (exOk c3f1).1 = ⟨true, false⟩
  ∧ (exOk c3f2).1 = ⟨true, false⟩
  ∧ (exOk c3f3).1 = ⟨false, true⟩
  ∧ ((exOk c3f1).2.db.task_queue.find? (fun r => r.id == 1)).map
      (fun r => (r.status, r.retry_count)) = some (TaskStatus.pending, 1)
  ∧ ((exOk c3f2).2.db.task_queue.find? (fun r => r.id == 1)).map
      (fun r => (r.status, r.retry_count)) = some (TaskStatus.pending, 2)
  ∧ ((exOk c3f3).2.db.task_queue.find? (fun r => r.id == 1)).map
      (fun r => r.status) = some TaskStatus.failed
  ∧ (exOk c3f3).2.db.dead_letter_queue.map (fun d => d.retry_count) = [3]
  ∧ (dequeueTask (exOk c3f3).2 40 9).1 = none := by
  refine ⟨?_, by decide, by decide, by decide, by decide, by decide, by decide, by decide,
    by decide⟩
  intro sys id err sr now t0 h
  simp only [failTask, h]
  cases hc : sr && decide (t0.retryCount + 1 ≤ t0.maxRetries) with
  | false => simp
  | true =>
    cases hr : sys.redisConnected with
    | false => simp [hr]
    | true => simp [hr]

/-- C3 (witness): the failTask result shape instantiated on a concrete
one-row durable store holding a processing task. -/
theorem failTask_retry_budget_witness :
    ∃ sys2, failTask sysC3w 1 "e" true 5 =
      Except.ok (⟨true && decide (t0C3.retryCount + 1 ≤ t0C3.maxRetries),
                  !(true && decide (t0C3.retryCount + 1 ≤ t0C3.maxRetries))⟩, sys2) :=
  failTask_retry_budget.1 sysC3w 1 "e" true 5 t0C3 (by decide)

theorem redisGet_processing_update (r : RedisState) (z : List (TaskId × Nat)) (id : TaskId) :
    redisGet { r with processing := z } id = redisGet r id := rfl

/-- C5 (counterexample): no finite cap exists for which the computed backoff
delay equals min(2 ^ retry_count seconds, cap): the delay the code computes
is the raw exponential with no cap at all. -/
theorem backoff_cap_refuted :
    ¬ ∃ cap : Nat, ∀ rc : Nat, delayMs rc = min (2 ^ rc * 1000) cap := by
  rintro ⟨cap, h⟩
  have h1 := h (cap + 1)
  have h2 : cap < 2 ^ (cap + 1) * 1000 := by
    have h3 : cap + 1 < 2 ^ (cap + 1) := Nat.lt_two_pow (cap + 1)
    have h4 : 2 ^ (cap + 1) ≤ 2 ^ (cap + 1) * 1000 :=
      Nat.le_mul_of_pos_right _ (by norm_num)
    omega
  unfold delayMs at h1
  rw [min_eq_right (Nat.le_of_lt h2)] at h1
  omega

/-- C5 (amended): the retry delay is exactly 2 ^ retry_count seconds with no
cap: it is non-decreasing in the retry count but unbounded, and on the fast
retry path failTask re-enqueues the task with score
priority * 1e12 + now + delayMs(retry_count + 1). -/
theorem backoff_uncapped_monotone :
    (∀ rc, delayMs rc = 2 ^ rc * 1000)
  ∧ (∀ r s, r ≤ s → delayMs r ≤ delayMs s)
  ∧ (∀ bound, ∃ rc, delayMs rc > bound)
  ∧ (∀ now rc, calculate_next_retry now rc = now + 2 ^ rc)
  ∧ (∀ sys id err now t0, sys.redisConnected = true → redisGet sys.redis id = some t0 →
      t0.retryCount + 1 ≤ t0.maxRetries →
      ∃ sys2, failTask sys id err true now = Except.ok (⟨true, false⟩, sys2) ∧
        (sys2.redis.pending.find? (fun p => p.1 == id)).map (fun p => p.2)
          = some (t0.priority * scoreBase + now + delayMs (t0.retryCount + 1))) := by
  refine ⟨fun rc => rfl, ?_, ?_, fun now rc => rfl, ?_⟩
  · intro r s hrs
    unfold delayMs
    exact Nat.mul_le_mul_right 1000 (Nat.pow_le_pow_right (by norm_num) hrs)
  · intro bound
    refine ⟨bound, ?_⟩
    unfold delayMs
    have h3 : bound < 2 ^ bound := Nat.lt_two_pow bound
    have h4 : 2 ^ bound ≤ 2 ^ bound * 1000 := Nat.le_mul_of_pos_right _ (by norm_num)
    omega
  · intro sys id err now t0 hconn hget hle
    obtain ⟨rc, red, dbs⟩ := sys
    have hrc : rc = true := hconn
    subst hrc
    have hget2 : redisGet red id = some t0 := hget
    have hload : loadTaskForFail ⟨true, red, dbs⟩ id = some t0 := by
      simp [loadTaskForFail, hget2]
    have hcr : (true && decide (t0.retryCount + 1 ≤ t0.maxRetries)) = true := by
      simp [hle]
    have e : failTask ⟨true, red, dbs⟩ id err true now
        = Except.ok (⟨true, false⟩, failRetryRedisState ⟨true, red, dbs⟩ id err now t0) := by
      simp only [failTask, hload]
      rw [hcr]
      rfl
    refine ⟨_, e, ?_⟩
    show ((zadd red.pending
        (t0.priority * scoreBase + now + delayMs (t0.retryCount + 1)) id).find?
        (fun p => p.1 == id)).map (fun p => p.2)
      = some (t0.priority * scoreBase + now + delayMs (t0.retryCount + 1))
    unfold zadd
    rw [find?_set]
    rfl

/-- C5 (witness): monotonicity, unboundedness and the fast-path re-enqueue
score instantiated on concrete values and a concrete fast-store state. -/
theorem backoff_uncapped_monotone_witness :
    delayMs 1 ≤ delayMs 2 ∧ (∃ rc, delayMs rc > 60000) ∧
    (∃ sys2, failTask sysC5 1 "e" true 10 = Except.ok (⟨true, false⟩, sys2) ∧
      (sys2.redis.pending.find? (fun p => p.1 == 1)).map (fun p => p.2)
        = some (t0C5.priority * scoreBase + 10 + delayMs (t0C5.retryCount + 1))) :=
  ⟨backoff_uncapped_monotone.2.1 1 2 (by decide),
   backoff_uncapped_monotone.2.2.1 60000,
   backoff_uncapped_monotone.2.2.2.2 sysC5 1 "e" 10 t0C5 rfl (by decide) (by decide)⟩

/-- C6: moveTaskToDlq always inserts exactly one dead-letter row capturing
the task's type, id, payload, final error, retry_count and max_retries with
the entry's own status pending, and marks the task's task_queue row failed;
Scenario B (enqueue with max_retries = 0, claim, one failure with
should_retry = true) yields a DLQ entry with retry_count 1 and
max_retries 0 while the original task row becomes failed. -/
theorem moveTaskToDlq_capture_and_mark_failed :
    (∀ sys task err now,
      (moveTaskToDlq sys task err now).db.dead_letter_queue =
        sys.db.dead_letter_queue ++
          [{ resource_type := task.type
             resource_id := task.id
             payload := task.payload
             error_message := err
             error_code := "MAX_RETRIES_EXCEEDED"
             retry_count := task.retryCount
             max_retries := task.maxRetries
             status := DlqStatus.pending }] ∧
      (moveTaskToDlq sys task err now).db.task_queue =
        sys.db.task_queue.map (fun r =>
          if r.id == task.id then
            { r with status := TaskStatus.failed, error_message := some err }
          else r))
  ∧ (exOk c6f).1 = ⟨false, true⟩
  ∧ (exOk c6f).2.db.dead_letter_queue =
      [{ resource_type := TaskType.document
         resource_id := 1
         payload := 42
         error_message := "boom"
         error_code := "MAX_RETRIES_EXCEEDED"
         retry_count := 1
         max_retries := 0
         status := DlqStatus.pending }]
  ∧ ((exOk c6f).2.db.task_queue.find? (fun r => r.id == 1)).map (fun r => r.status)
      = some TaskStatus.failed := by
  refine ⟨?_, by decide, by decide, by decide⟩
  intro sys task err now
  cases hr : sys.redisConnected with
  | false => exact ⟨by simp [moveTaskToDlq, hr], by simp [moveTaskToDlq, hr]⟩
  | true => exact ⟨by simp [moveTaskToDlq, hr], by simp [moveTaskToDlq, hr]⟩

theorem completeTask_redis_get (sys : Sys) (id : TaskId) (res : Option ResultVal) (t1 : Nat)
    (t0 : QueueTask) (hconn : sys.redisConnected = true)
    (hget : redisGet sys.redis id = some t0) :
    (completeTask sys id res t1).redisConnected = true ∧
    redisGet (completeTask sys id res t1).redis id
      = some { t0 with status := TaskStatus.completed, completedAt := some t1, result := res } := by
  have e : completeTask sys id res t1 = { sys with redis :=
      { redisSet sys.redis id
          { t0 with status := TaskStatus.completed, completedAt := some t1, result := res } with
        processing := (zrem (redisSet sys.redis id
          { t0 with status := TaskStatus.completed, completedAt := some t1, result := res }).processing
          id).1 } } := by
    simp only [completeTask, hconn, hget]
    simp
  rw [e]
  refine ⟨hconn, ?_⟩
  rw [redisGet_processing_update]
  exact redisGet_redisSet _ _ _

/-- C8 (counterexample): completing the same task twice with the same result
is not a no-op: the second call overwrites completed_at with its own
timestamp, so the stored task changes. -/
theorem completeTask_second_call_mutates :
    c8s1.db.task_queue.map (fun r => r.completed_at) = [some 10] ∧
    c8s2.db.task_queue.map (fun r => r.completed_at) = [some 20] ∧
    ¬ c8s2 = c8s1 := by decide

/-- C8 (amended): calling completeTask twice with the same result does not
error and leaves the task completed with that result on either backend, but
completed_at is refreshed to the second call's time rather than left
unchanged. -/
theorem completeTask_idempotent_amended :
    (∀ sys id res t1 t2 r, sys.redisConnected = false →
      r ∈ (completeTask (completeTask sys id res t1) id res t2).db.task_queue → r.id = id →
      r.status = TaskStatus.completed ∧ r.result = res ∧ r.completed_at = some t2)
  ∧ (∀ sys id res t1 t2 t0, sys.redisConnected = true → redisGet sys.redis id = some t0 →
      redisGet (completeTask (completeTask sys id res t1) id res t2).redis id
        = some { t0 with status := TaskStatus.completed, completedAt := some t2, result := res }) := by
  constructor
  · intro sys id res t1 t2 r h hr hid
    have e1 : completeTask sys id res t1
        = { sys with db := { sys.db with
            task_queue := sys.db.task_queue.map (completeRow id res t1) } } := by
      simp [completeTask, h]
    have e2 : completeTask (completeTask sys id res t1) id res t2
        = { sys with db := { sys.db with
            task_queue := (sys.db.task_queue.map (completeRow id res t1)).map
              (completeRow id res t2) } } := by
      rw [e1]
      simp [completeTask, h]
    rw [e2] at hr
    simp only [List.map_map] at hr
    obtain ⟨r0, hr0, rfl⟩ := List.mem_map.1 hr
    by_cases h0 : r0.id = id
    · refine ⟨?_, ?_, ?_⟩ <;> simp [completeRow, h0]
    · simp [completeRow, h0] at hid
  · intro sys id res t1 t2 t0 hconn hget
    have h1 := completeTask_redis_get sys id res t1 t0 hconn hget
    have h2 := completeTask_redis_get (completeTask sys id res t1) id res t2
      { t0 with status := TaskStatus.completed, completedAt := some t1, result := res } h1.1 h1.2
    exact h2.2

/-- C8 (witness): the amended statement instantiated on a concrete durable
run (the P6 scenario) and on a concrete fast-store state. -/
theorem completeTask_idempotent_amended_witness :
    ({ id := 1
       workflow_name := "Document Processing Worker"
       task_type := TaskType.document
       priority := 2
       payload := 0
       status := TaskStatus.completed
       retry_count := 0
       max_retries := 3
       created_at := 0
       started_at := none
       completed_at := some 20
       worker_id := none
       error_message := none
       result := some 99 : TaskRow }.status = TaskStatus.completed ∧
     ({ id := 1
        workflow_name := "Document Processing Worker"
        task_type := TaskType.document
        priority := 2
        payload := 0
        status := TaskStatus.completed
        retry_count := 0
        max_retries := 3
        created_at := 0
        started_at := none
        completed_at := some 20
        worker_id := none
        error_message := none
        result := some 99 : TaskRow }.result = some 99 ∧
      { id := 1
        workflow_name := "Document Processing Worker"
        task_type := TaskType.document
        priority := 2
        payload := 0
        status := TaskStatus.completed
        retry_count := 0
        max_retries := 3
        created_at := 0
        started_at := none
        completed_at := some 20
        worker_id := none
        error_message := none
        result := some 99 : TaskRow }.completed_at = some 20)) ∧
    redisGet (completeTask (completeTask sysC5 1 (some 99) 10) 1 (some 99) 20).redis 1
      = some { t0C5 with status := TaskStatus.completed, completedAt := some 20, result := some 99 } :=
  ⟨completeTask_idempotent_amended.1 c8s0 1 (some 99) 10 20 _ rfl (by decide) (by decide),
   completeTask_idempotent_amended.2 sysC5 1 (some 99) 10 20 t0C5 rfl (by decide)⟩

/-- C9 (counterexample): after the Scenario C operation sequence on the fast
path, getQueueStats reports completed = 0 and failed = 0 even though two
tasks are actually completed and one dead-lettered task is failed. -/
theorem redis_stats_zero_counterexample :
    getQueueStats c9rFinal = ⟨2, 0, 0, 0, 1, QueueSource.redis⟩ ∧
    (c9rFinal.redis.tasks.filter (fun p => p.2.status == TaskStatus.completed)).length = 2 ∧
    (c9rFinal.redis.dlq.filter (fun p => p.2.task.status == TaskStatus.failed)).length = 1 := by
  decide

/-- C9 (amended): on the durable backend the reported stats are the true
per-status counts plus the pending DLQ size, and Scenario C yields
pending 2, processing 0, completed 2, failed 1, dlqSize 1; on the fast
backend the completed and failed fields are always reported as zero. -/
theorem getQueueStats_amended :
    (∀ sys, sys.redisConnected = false →
      getQueueStats sys =
        { pending := (sys.db.task_queue.filter (fun t => t.status == TaskStatus.pending)).length
          processing := (sys.db.task_queue.filter
            (fun t => t.status == TaskStatus.processing)).length
          completed := (sys.db.task_queue.filter
            (fun t => t.status == TaskStatus.completed)).length
          failed := (sys.db.task_queue.filter (fun t => t.status == TaskStatus.failed)).length
          dlqSize := (sys.db.dead_letter_queue.filter
            (fun d => d.status == DlqStatus.pending)).length
          source := QueueSource.supabase })
  ∧ (∀ sys, sys.redisConnected = true →
      (getQueueStats sys).completed = 0 ∧ (getQueueStats sys).failed = 0)
  ∧ getQueueStats c9pFinal = ⟨2, 0, 2, 1, 1, QueueSource.supabase⟩ := by
  refine ⟨?_, ?_, by decide⟩
  · intro sys h
    simp [getQueueStats, h]
  · intro sys h
    simp [getQueueStats, h]

/-- C9 (witness): the amended statement instantiated on the empty durable
system and the empty fast system. -/
theorem getQueueStats_amended_witness :
    getQueueStats sysSupa0 =
      { pending := (sysSupa0.db.task_queue.filter (fun t => t.status == TaskStatus.pending)).length
        processing := (sysSupa0.db.task_queue.filter
          (fun t => t.status == TaskStatus.processing)).length
        completed := (sysSupa0.db.task_queue.filter
          (fun t => t.status == TaskStatus.completed)).length
        failed := (sysSupa0.db.task_queue.filter (fun t => t.status == TaskStatus.failed)).length
        dlqSize := (sysSupa0.db.dead_letter_queue.filter
          (fun d => d.status == DlqStatus.pending)).length
        source := QueueSource.supabase } ∧
    ((getQueueStats sysRedis0).completed = 0 ∧ (getQueueStats sysRedis0).failed = 0) :=
  ⟨getQueueStats_amended.1 sysSupa0 rfl, getQueueStats_amended.2.1 sysRedis0 rfl⟩
